import Mathlib

/-!
Shallow embedding of the OAuth 2.1 authorization module of the repository
(`src/unnamed/part_002`): data model, the PKCE verifier, and the four
stateful operations `handleRegister`, `handleAuthorize`, `handleToken`,
`validateAccessToken`.

Modelling conventions:
* The three module-level `Map<string, T>` stores become association lists
  `List (String × T)` with `mapGet` / `mapSet` / `mapDel` mirroring
  `Map.get` / `Map.set` / `Map.delete` (first-match lookup; `mapSet`
  removes any previous binding of the key, so lookups agree with the
  JavaScript map).
* `crypto.randomBytes(n).toString("base64url")` is modelled by an abstract
  random stream carried in the state: `rng : Nat → String` together with a
  cursor `rngIdx`; each call to `generateRandomString` consumes one draw.
* The SHA-256 + base64url digest used by PKCE is kept abstract as a
  function argument `sha256b64url : String → String`; the claims only
  concern how its output is compared, never its internals.
* `Date.now()` becomes an explicit `now : Nat` argument (milliseconds).
* Request fields that JavaScript may receive as `undefined` are `Option
  String`; JavaScript truthiness (`undefined` and `""` are falsy) is
  `truthy`.
* Express responses become inductive result types carrying the exact
  status codes and body fields the handlers write.
-/

namespace OAuth

/-- `interface AuthorizationCode` (part_002 lines 14-22). -/
structure AuthorizationCode where
  code : String
  clientId : String
  redirectUri : String
  codeChallenge : String
  codeChallengeMethod : String
  expiresAt : Nat
  used : Bool
deriving DecidableEq, Repr

/-- `interface RegisteredClient` (part_002 lines 24-30). -/
structure RegisteredClient where
  clientId : String
  clientSecret : Option String
  redirectUris : List String
  clientName : Option String
  createdAt : Nat
deriving DecidableEq, Repr

/-- `interface AccessToken` (part_002 lines 32-36). -/
structure AccessToken where
  token : String
  clientId : String
  expiresAt : Nat
deriving DecidableEq, Repr

/-- `Map.get`: first binding of the key, if any. -/
def mapGet {α : Type} (l : List (String × α)) (k : String) : Option α :=
  (l.find? (fun p => p.1 == k)).map (fun p => p.2)

/-- `Map.delete`: remove every binding of the key. -/
def mapDel {α : Type} (l : List (String × α)) (k : String) : List (String × α) :=
  l.filter (fun p => p.1 != k)

/-- `Map.set`: bind the key, dropping any previous binding. -/
def mapSet {α : Type} (l : List (String × α)) (k : String) (v : α) : List (String × α) :=
  (k, v) :: mapDel l k

/-- The module state: the three stores of part_002 lines 39-41 plus the
abstract random stream that models `crypto.randomBytes`. -/
structure OAuthState where
  authorizationCodes : List (String × AuthorizationCode)
  registeredClients : List (String × RegisteredClient)
  accessTokens : List (String × AccessToken)
  rng : Nat → String
  rngIdx : Nat

/-- `TOKEN_EXPIRY_SECONDS = 3600` (part_002 line 44). -/
def TOKEN_EXPIRY_SECONDS : Nat := 3600

/-- `CODE_EXPIRY_SECONDS = 600` (part_002 line 45). -/
def CODE_EXPIRY_SECONDS : Nat := 600

/-- JavaScript truthiness of an optional string: `undefined` and `""` are
falsy, every other string is truthy. -/
def truthy : Option String → Bool
  | none => false
  | some s => !(s == "")

/-- `generateRandomString(length)` (part_002 lines 50-52): draws the next
string from the abstract random stream. The `length` argument does not
influence the model beyond being recorded at each call site. -/
def generateRandomString (_length : Nat) (s : OAuthState) : String × OAuthState :=
  (s.rng s.rngIdx, { s with rngIdx := s.rngIdx + 1 })

/-- `verifyCodeChallenge` (part_002 lines 57-72), with the SHA-256 +
base64url digest abstracted as `sha256b64url`. -/
def verifyCodeChallenge (sha256b64url : String → String)
    (codeVerifier codeChallenge method : String) : Bool :=
  if method == "S256" then
    sha256b64url codeVerifier == codeChallenge
  else if method == "plain" then
    codeVerifier == codeChallenge
  else
    false

/-- Result of `handleRegister`: either a JSON error body with its HTTP
status, or the 201 success body (part_002 lines 112-162). -/
inductive RegisterResult where
  | error (status : Nat) (error : String) (error_description : String)
  | success (status : Nat) (client_id : String) (client_secret : String)
      (redirect_uris : List String) (client_name : Option String)
deriving DecidableEq, Repr

/-- Body of a `POST /register` request (part_002 line 110); a missing or
non-array `redirect_uris` is `none`. -/
structure RegisterRequest where
  redirect_uris : Option (List String)
  client_name : Option String
deriving DecidableEq, Repr

/-- `new URL(uri)` reduced to the two components the validation reads:
`url.protocol` (scheme with trailing colon) and `url.hostname`.
Simplified parser for hierarchical URLs: the scheme is what precedes
`://` (must be non-empty), the hostname is the following run of
characters up to `/`, `:`, `?` or `#`; anything without `://` fails to
parse, matching the `catch` branch of part_002 lines 122-140 on such
inputs. -/
structure UrlParts where
  protocol : String
  hostname : String
deriving DecidableEq, Repr

/-- Split a character list at the first occurrence of `"://"`, returning
the characters before it and after it. -/
def breakOnProtoSep : List Char → Option (List Char × List Char)
  | [] => none
  | ':' :: '/' :: '/' :: rest => some ([], rest)
  | c :: rest =>
    match breakOnProtoSep rest with
    | some (a, b) => some (c :: a, b)
    | none => none

def parseUrl (uri : String) : Option UrlParts :=
  match breakOnProtoSep uri.toList with
  | none => none
  | some (scheme, rest) =>
    if scheme.isEmpty then none
    else
      some { protocol := String.mk scheme ++ ":",
             hostname := String.mk (rest.takeWhile
               (fun c => !(c == '/') && !(c == ':') && !(c == '?') && !(c == '#'))) }

/-- The per-URI loop body of part_002 lines 121-141: `true` iff the URI
parses and is loopback or HTTPS. -/
def redirectUriOk (uri : String) : Bool :=
  match parseUrl uri with
  | none => false
  | some url =>
    (url.hostname == "localhost" || url.hostname == "127.0.0.1") || (url.protocol == "https:")

/-- The validation loop of part_002 lines 121-141: the error description
produced by the first offending URI, or `none` when all URIs pass. -/
def findBadRedirectUri : List String → Option String
  | [] => none
  | uri :: rest =>
    match parseUrl uri with
    | none => some "Invalid redirect URI format"
    | some url =>
      if (url.hostname == "localhost" || url.hostname == "127.0.0.1") || (url.protocol == "https:") then
        findBadRedirectUri rest
      else
        some "Redirect URIs must be localhost or HTTPS"

/-- `handleRegister` (part_002 lines 109-163). -/
def handleRegister (now : Nat) (req : RegisterRequest) (s : OAuthState) :
    RegisterResult × OAuthState :=
  match req.redirect_uris with
  | none => (.error 400 "invalid_request" "redirect_uris is required", s)
  | some uris =>
    if uris.isEmpty then
      (.error 400 "invalid_request" "redirect_uris is required", s)
    else
      match findBadRedirectUri uris with
      | some desc => (.error 400 "invalid_redirect_uri" desc, s)
      | none =>
        let (clientId, s1) := generateRandomString 32 s
        let (clientSecret, s2) := generateRandomString 48 s1
        let client : RegisteredClient :=
          { clientId := clientId, clientSecret := some clientSecret,
            redirectUris := uris, clientName := req.client_name, createdAt := now }
        (.success 201 clientId clientSecret uris req.client_name,
          { s2 with registeredClients := mapSet s2.registeredClients clientId client })

/-- Query of `GET /authorize` (part_002 lines 170-177). -/
structure AuthorizeRequest where
  client_id : Option String
  redirect_uri : Option String
  response_type : Option String
  code_challenge : Option String
  code_challenge_method : Option String
  state : Option String
deriving DecidableEq, Repr

/-- Result of `handleAuthorize`: a 400 plain-text rejection; the 302
redirect, recorded structurally as the target URI plus the `code` and
optional `state` query parameters the handler sets (part_002 lines
219-225); or `thrown`, the uncaught exception raised by
`new URL(redirect_uri)` at part_002 line 219 when the supplied
`redirect_uri` does not parse — Express turns that throw into a 500
response and no redirect is sent, but the code minted at line 216 has
already been stored by then. -/
inductive AuthorizeResult where
  | error (status : Nat) (body : String)
  | redirect (status : Nat) (redirectUri : String) (code : String) (state : Option String)
  | thrown
deriving DecidableEq, Repr

/-- `handleAuthorize` (part_002 lines 169-226). The store happens at line
216, before `new URL(redirect_uri)` at line 219; if that constructor
throws (modelled by `parseUrl` returning `none`), the result is `thrown`
with the code nonetheless stored. -/
def handleAuthorize (now : Nat) (req : AuthorizeRequest) (s : OAuthState) :
    AuthorizeResult × OAuthState :=
  if !(truthy req.client_id) then
    (.error 400 "Missing client_id", s)
  else if req.response_type != some "code" then
    (.error 400 "Unsupported response_type. Only 'code' is supported.", s)
  else if !(truthy req.redirect_uri) then
    (.error 400 "Missing redirect_uri", s)
  else if !(truthy req.code_challenge) then
    (.error 400 "Missing code_challenge (PKCE required)", s)
  else
    let (code, s1) := generateRandomString 48 s
    let authCode : AuthorizationCode :=
      { code := code,
        clientId := req.client_id.getD "",
        redirectUri := req.redirect_uri.getD "",
        codeChallenge := req.code_challenge.getD "",
        codeChallengeMethod :=
          if truthy req.code_challenge_method then req.code_challenge_method.getD ""
          else "plain",
        expiresAt := now + CODE_EXPIRY_SECONDS * 1000,
        used := false }
    let s2 := { s1 with authorizationCodes := mapSet s1.authorizationCodes code authCode }
    match parseUrl (req.redirect_uri.getD "") with
    | none => (.thrown, s2)
    | some _ =>
      (.redirect 302 (req.redirect_uri.getD "") code
          (if truthy req.state then req.state else none),
        s2)

/-- Body of `POST /token` (part_002 lines 233-239). -/
structure TokenRequest where
  grant_type : Option String
  code : Option String
  redirect_uri : Option String
  client_id : Option String
  code_verifier : Option String
deriving DecidableEq, Repr

/-- Result of `handleToken`: a JSON error body with its HTTP status, or
the 200 success body (part_002 lines 340-344). -/
inductive TokenResult where
  | error (status : Nat) (error : String) (error_description : String)
  | success (access_token : String) (token_type : String) (expires_in : Nat)
deriving DecidableEq, Repr

/-- `handleToken` (part_002 lines 232-345). The source sets
`authCode.used = true` and immediately `delete`s the entry (lines
324-338); the functional model performs the net effect, the deletion. -/
def handleToken (sha256b64url : String → String) (now : Nat)
    (req : TokenRequest) (s : OAuthState) : TokenResult × OAuthState :=
  if req.grant_type != some "authorization_code" then
    (.error 400 "unsupported_grant_type" "Only authorization_code grant is supported", s)
  else if !(truthy req.code) then
    (.error 400 "invalid_request" "Missing authorization code", s)
  else
    let code := req.code.getD ""
    match mapGet s.authorizationCodes code with
    | none => (.error 400 "invalid_grant" "Invalid authorization code", s)
    | some authCode =>
      if now > authCode.expiresAt then
        (.error 400 "invalid_grant" "Authorization code has expired",
          { s with authorizationCodes := mapDel s.authorizationCodes code })
      else if authCode.used then
        (.error 400 "invalid_grant" "Authorization code has already been used",
          { s with authorizationCodes := mapDel s.authorizationCodes code })
      else if truthy req.client_id && (req.client_id != some authCode.clientId) then
        (.error 400 "invalid_grant" "Client ID mismatch", s)
      else if truthy req.redirect_uri && (req.redirect_uri != some authCode.redirectUri) then
        (.error 400 "invalid_grant" "Redirect URI mismatch", s)
      else if !(truthy req.code_verifier) then
        (.error 400 "invalid_request" "Missing code_verifier (PKCE required)", s)
      else if !(verifyCodeChallenge sha256b64url (req.code_verifier.getD "")
          authCode.codeChallenge authCode.codeChallengeMethod) then
        (.error 400 "invalid_grant" "Invalid code_verifier", s)
      else
        let (accessToken, s1) := generateRandomString 64 s
        let tokenExpiresAt := now + TOKEN_EXPIRY_SECONDS * 1000
        (.success accessToken "Bearer" TOKEN_EXPIRY_SECONDS,
          { s1 with
            accessTokens := mapSet s1.accessTokens accessToken
              { token := accessToken, clientId := authCode.clientId,
                expiresAt := tokenExpiresAt },
            authorizationCodes := mapDel s1.authorizationCodes code })

/-- `authHeader.split(" ")`: split at every single space character, like
the JavaScript `String.prototype.split` with a one-character separator. -/
def splitOnChar (sep : Char) : List Char → List (List Char)
  | [] => [[]]
  | c :: cs =>
    if c = sep then [] :: splitOnChar sep cs
    else
      match splitOnChar sep cs with
      | g :: gs => (c :: g) :: gs
      | [] => [[c]]

def splitOnSpace (s : String) : List String :=
  (splitOnChar ' ' s.toList).map String.mk

/-- `validateAccessToken` (part_002 lines 351-375). -/
def validateAccessToken (now : Nat) (authHeader : Option String) (s : OAuthState) :
    Bool × OAuthState :=
  match authHeader with
  | none => (false, s)
  | some h =>
    if h == "" then (false, s)
    else
      match splitOnSpace h with
      | [p0, p1] =>
        if p0 != "Bearer" then (false, s)
        else
          match mapGet s.accessTokens p1 with
          | none => (false, s)
          | some tokenData =>
            if now > tokenData.expiresAt then
              (false, { s with accessTokens := mapDel s.accessTokens p1 })
            else
              (true, s)
      | _ => (false, s)

/-- Sequential execution of a batch of token requests: because
`handleToken` contains no `await`, the Node.js event loop runs each
invocation to completion, so N concurrent requests are processed as N
back-to-back invocations in arrival order. -/
def runTokenRequests (sha256b64url : String → String) (now : Nat) :
    List TokenRequest → OAuthState → List TokenResult × OAuthState
  | [], s => ([], s)
  | r :: rs, s =>
    ((handleToken sha256b64url now r s).1 ::
        (runTokenRequests sha256b64url now rs (handleToken sha256b64url now r s).2).1,
      (runTokenRequests sha256b64url now rs (handleToken sha256b64url now r s).2).2)

/-- A token-endpoint outcome that is a 200 success. -/
def isTokenSuccess : TokenResult → Bool
  | .success _ _ _ => true
  | .error _ _ _ => false

/-- A token-endpoint outcome that is an `invalid_grant` error. -/
def isInvalidGrant : TokenResult → Bool
  | .error _ e _ => e == "invalid_grant"
  | .success _ _ _ => false

end OAuth

namespace OAuth

/-! ### Concrete fixtures used by witnesses and counterexamples -/

/-- A concrete stand-in for the SHA-256 + base64url digest. -/
def shaEx : String → String := fun v => v ++ "#h"

/-- A stored, unexpired, unused `S256` authorization code whose challenge
is `shaEx "v"`. -/
def acEx : AuthorizationCode where
  code := "c1"
  clientId := "cl"
  redirectUri := "http://localhost/cb"
  codeChallenge := "v#h"
  codeChallengeMethod := "S256"
  expiresAt := 1000
  used := false

/-- A concrete module state holding exactly `acEx`. -/
def stEx : OAuthState where
  authorizationCodes := [("c1", acEx)]
  registeredClients := []
  accessTokens := []
  rng := fun n => "r" ++ Nat.repr n
  rngIdx := 0

/-- The exchange request matching `acEx`. -/
def tokReqEx : TokenRequest where
  grant_type := some "authorization_code"
  code := some "c1"
  redirect_uri := none
  client_id := none
  code_verifier := some "v"

/-- A previously registered client, for uniqueness checks. -/
def rcEx : RegisteredClient where
  clientId := "old-id"
  clientSecret := some "old-secret"
  redirectUris := ["https://old.example/cb"]
  clientName := none
  createdAt := 0

/-- A module state with one previously registered client. -/
def stReg : OAuthState where
  authorizationCodes := []
  registeredClients := [("old-id", rcEx)]
  accessTokens := []
  rng := fun n => "r" ++ Nat.repr n
  rngIdx := 0

/-- A stored access token, for bearer-validation checks. -/
def tkEx : AccessToken where
  token := "t1"
  clientId := "cl"
  expiresAt := 5000

/-- A module state holding exactly `tkEx`. -/
def stTok : OAuthState where
  authorizationCodes := []
  registeredClients := []
  accessTokens := [("t1", tkEx)]
  rng := fun n => "r" ++ Nat.repr n
  rngIdx := 0

/-- A well-formed authorize request with a nonempty `state`. -/
def authReqEx : AuthorizeRequest where
  client_id := some "cid"
  redirect_uri := some "http://localhost/cb"
  response_type := some "code"
  code_challenge := some "X"
  code_challenge_method := none
  state := some "st"

/-- The authorization-code record minted by `handleAuthorize` (part_002
lines 206-214) for a request `req` at time `now`, once the random draw
`code` is fixed. -/
def mintedAuthCode (now : Nat) (req : AuthorizeRequest) (code : String) : AuthorizationCode where
  code := code
  clientId := req.client_id.getD ""
  redirectUri := req.redirect_uri.getD ""
  codeChallenge := req.code_challenge.getD ""
  codeChallengeMethod :=
    if truthy req.code_challenge_method then req.code_challenge_method.getD "" else "plain"
  expiresAt := now + CODE_EXPIRY_SECONDS * 1000
  used := false

/-! ### Helper lemmas about the association-list maps -/

theorem mapGet_mapSet_self {α : Type} (l : List (String × α)) (k : String) (v : α) :
    mapGet (mapSet l k v) k = some v := by
  simp [mapGet, mapSet, List.find?]

theorem mapGet_mapDel_self {α : Type} (l : List (String × α)) (k : String) :
    mapGet (mapDel l k) k = none := by
  induction l with
  | nil => rfl
  | cons p t ih =>
    cases hbk : (p.1 == k) with
    | true =>
      have hdrop : (p.1 != k) = false := by simp [bne, hbk]
      simp only [mapDel, List.filter_cons, hdrop, Bool.false_eq_true, if_neg, not_false_eq_true]
      exact ih
    | false =>
      have hkeep : (p.1 != k) = true := by simp [bne, hbk]
      simp only [mapDel, List.filter_cons, hkeep, if_pos]
      simp only [mapGet, List.find?_cons, hbk]
      exact ih

theorem mapGet_mapDel_ne {α : Type} (l : List (String × α)) (k k' : String)
    (h : k' ≠ k) : mapGet (mapDel l k) k' = mapGet l k' := by
  induction l with
  | nil => rfl
  | cons p t ih =>
    cases hbk : (p.1 == k) with
    | true =>
      have hpk : p.1 = k := by simpa using hbk
      have hbk' : (p.1 == k') = false := by
        simp only [beq_eq_false_iff_ne, ne_eq, hpk]
        exact fun e => h e.symm
      have hdrop : (p.1 != k) = false := by simp [bne, hbk]
      simp only [mapDel, List.filter_cons, hdrop, Bool.false_eq_true, if_neg, not_false_eq_true]
      rw [show mapGet (p :: t) k' = mapGet t k' by simp [mapGet, List.find?_cons, hbk']]
      exact ih
    | false =>
      have hkeep : (p.1 != k) = true := by simp [bne, hbk]
      simp only [mapDel, List.filter_cons, hkeep, if_pos]
      cases hbk' : (p.1 == k') with
      | true => simp [mapGet, List.find?_cons, hbk']
      | false =>
        simp only [mapGet, List.find?_cons, hbk']
        exact ih

theorem mapGet_mapSet_ne {α : Type} (l : List (String × α)) (k k' : String) (v : α)
    (h : k' ≠ k) : mapGet (mapSet l k v) k' = mapGet l k' := by
  have hbk : (k == k') = false := by
    simp only [beq_eq_false_iff_ne, ne_eq]
    exact fun e => h e.symm
  simp only [mapSet, mapGet, List.find?_cons, hbk]
  exact mapGet_mapDel_ne l k k' h

theorem mapDel_eq_self {α : Type} (l : List (String × α)) (k : String)
    (h : mapGet l k = none) : mapDel l k = l := by
  induction l with
  | nil => rfl
  | cons p t ih =>
    cases hbk : (p.1 == k) with
    | true => simp [mapGet, List.find?_cons, hbk] at h
    | false =>
      simp only [mapGet, List.find?_cons, hbk] at h
      have hkeep : (p.1 != k) = true := by simp [bne, hbk]
      simp only [mapDel, List.filter_cons, hkeep, if_pos]
      rw [show List.filter (fun p => p.1 != k) t = mapDel t k from rfl,
        ih (by simpa [mapGet] using h)]

theorem mapSet_length {α : Type} (l : List (String × α)) (k : String) (v : α)
    (h : mapGet l k = none) : (mapSet l k v).length = l.length + 1 := by
  simp [mapSet, mapDel_eq_self l k h]

/-! ### C4 -/

/-- C4: PKCE verification is exactly: under method `S256` it succeeds iff
the digest of the verifier equals the stored challenge; under `plain` iff
the verifier equals the challenge; under every other method it is `false`
for every verifier. -/
theorem C4_pkce_verification (sha : String → String) (v c m : String) :
    (m = "S256" → verifyCodeChallenge sha v c m = (sha v == c)) ∧
    (m = "plain" → verifyCodeChallenge sha v c m = (v == c)) ∧
    (m ≠ "S256" → m ≠ "plain" → verifyCodeChallenge sha v c m = false) := by
  refine ⟨fun h => ?_, fun h => ?_, fun h1 h2 => ?_⟩
  · simp [verifyCodeChallenge, h]
  · simp [verifyCodeChallenge, h]
  · simp [verifyCodeChallenge, h1, h2]

theorem C4_pkce_verification_witness :
    verifyCodeChallenge shaEx "v" "v#h" "S256" = ((shaEx "v") == "v#h") ∧
    verifyCodeChallenge shaEx "p" "p" "plain" = (("p" : String) == "p") ∧
    verifyCodeChallenge shaEx "p" "p" "weird" = false :=
  ⟨(C4_pkce_verification shaEx "v" "v#h" "S256").1 rfl,
   (C4_pkce_verification shaEx "p" "p" "plain").2.1 rfl,
   (C4_pkce_verification shaEx "p" "p" "weird").2.2 (by decide) (by decide)⟩

/-! ### C6 / C7: registration -/

theorem findBadRedirectUri_eq_none_iff (uris : List String) :
    findBadRedirectUri uris = none ↔ ∀ uri ∈ uris, redirectUriOk uri = true := by
  induction uris with
  | nil => simp [findBadRedirectUri]
  | cons u rest ih =>
    cases hp : parseUrl u with
    | none => simp [findBadRedirectUri, hp, redirectUriOk]
    | some url =>
      cases hc : ((url.hostname == "localhost" || url.hostname == "127.0.0.1") ||
          (url.protocol == "https:")) with
      | true =>
        simp only [findBadRedirectUri, hp, hc, if_pos, List.mem_cons]
        rw [ih]
        constructor
        · rintro hall v (rfl | hv)
          · simp [redirectUriOk, hp, hc]
          · exact hall v hv
        · intro hall v hv
          exact hall v (Or.inr hv)
      | false =>
        simp [findBadRedirectUri, hp, hc, redirectUriOk]

/-- C6: whenever some requested redirect URI fails the loopback-or-HTTPS
check (including parse failure), `handleRegister` answers 400
`invalid_redirect_uri` and leaves the entire module state — in particular
the client store — exactly as it was. -/
theorem C6_register_atomic_failure (now : Nat) (req : RegisterRequest) (s : OAuthState)
    (uris : List String) (hu : req.redirect_uris = some uris)
    (hbad : ∃ uri ∈ uris, redirectUriOk uri = false) :
    (∃ desc, handleRegister now req s = (.error 400 "invalid_redirect_uri" desc, s)) ∧
    (handleRegister now req s).2.registeredClients = s.registeredClients := by
  obtain ⟨u, hmem, hne⟩ := hbad
  have hnil : uris.isEmpty = false := by
    cases uris with
    | nil => cases hmem
    | cons a l => rfl
  have hfind : findBadRedirectUri uris ≠ none := by
    rw [ne_eq, findBadRedirectUri_eq_none_iff]
    intro hall
    rw [hall u hmem] at hne
    cases hne
  obtain ⟨desc, hdesc⟩ := Option.ne_none_iff_exists'.mp hfind
  have heq : handleRegister now req s = (.error 400 "invalid_redirect_uri" desc, s) := by
    simp [handleRegister, hu, hnil, hdesc]
  exact ⟨⟨desc, heq⟩, by rw [heq]⟩

theorem C6_register_atomic_failure_witness :
    (∃ desc,
      handleRegister 7 { redirect_uris := some ["http://evil.example/cb"], client_name := none }
        stReg = (.error 400 "invalid_redirect_uri" desc, stReg)) ∧
    (handleRegister 7 { redirect_uris := some ["http://evil.example/cb"], client_name := none }
        stReg).2.registeredClients = stReg.registeredClients :=
  C6_register_atomic_failure 7 _ stReg ["http://evil.example/cb"] rfl
    ⟨"http://evil.example/cb", by decide, by decide⟩

/-- C7 as stated is false: a list containing at least one HTTPS redirect
URI still fails registration when any other entry is invalid, because the
loop rejects at the first offending URI. -/
theorem C7_counterexample :
    redirectUriOk "https://ok.example/cb" = true ∧
    (handleRegister 7
        { redirect_uris := some ["http://evil.example/cb", "https://ok.example/cb"],
          client_name := none } stReg).1 =
      .error 400 "invalid_redirect_uri" "Redirect URIs must be localhost or HTTPS" ∧
    (handleRegister 7
        { redirect_uris := some ["http://evil.example/cb", "https://ok.example/cb"],
          client_name := none } stReg).2.registeredClients = stReg.registeredClients := by
  refine ⟨by decide, by decide, ?_⟩
  decide

/-- C7 (amended): for every registration whose redirect-URI list is
non-empty and in which every entry passes the loopback-or-HTTPS check,
`handleRegister` succeeds with 201, stores the client, and — whenever the
freshly drawn `client_id` differs from every previously issued one — the
returned `client_id`/`client_secret` pair is distinct from every
previously issued pair. -/
theorem C7_register_success (now : Nat) (req : RegisterRequest) (s : OAuthState)
    (uris : List String) (hu : req.redirect_uris = some uris) (hne : uris ≠ [])
    (hok : ∀ uri ∈ uris, redirectUriOk uri = true)
    (hfresh : ∀ p ∈ s.registeredClients, p.2.clientId ≠ s.rng s.rngIdx) :
    handleRegister now req s =
      (.success 201 (s.rng s.rngIdx) (s.rng (s.rngIdx + 1)) uris req.client_name,
        { s with
          registeredClients := mapSet s.registeredClients (s.rng s.rngIdx)
            { clientId := s.rng s.rngIdx, clientSecret := some (s.rng (s.rngIdx + 1)),
              redirectUris := uris, clientName := req.client_name, createdAt := now },
          rngIdx := s.rngIdx + 2 }) ∧
    ∀ p ∈ s.registeredClients,
      ¬(p.2.clientId = s.rng s.rngIdx ∧ p.2.clientSecret = some (s.rng (s.rngIdx + 1))) := by
  have hnil : uris.isEmpty = false := by
    cases uris with
    | nil => cases hne rfl
    | cons a l => rfl
  have hfind : findBadRedirectUri uris = none := (findBadRedirectUri_eq_none_iff uris).mpr hok
  constructor
  · simp [handleRegister, hu, hnil, hfind, generateRandomString]
  · intro p hp hpair
    exact hfresh p hp hpair.1

theorem C7_register_success_witness :
    handleRegister 9 { redirect_uris := some ["https://ok.example/cb"], client_name := some "n" }
        stReg =
      (.success 201 (stReg.rng stReg.rngIdx) (stReg.rng (stReg.rngIdx + 1))
          ["https://ok.example/cb"] (some "n"),
        { stReg with
          registeredClients := mapSet stReg.registeredClients (stReg.rng stReg.rngIdx)
            { clientId := stReg.rng stReg.rngIdx,
              clientSecret := some (stReg.rng (stReg.rngIdx + 1)),
              redirectUris := ["https://ok.example/cb"], clientName := some "n",
              createdAt := 9 },
          rngIdx := stReg.rngIdx + 2 }) ∧
    ∀ p ∈ stReg.registeredClients,
      ¬(p.2.clientId = stReg.rng stReg.rngIdx ∧
        p.2.clientSecret = some (stReg.rng (stReg.rngIdx + 1))) :=
  C7_register_success 9 _ stReg ["https://ok.example/cb"] rfl (by decide) (by decide) (by decide)

/-! ### C8: authorize postcondition -/

/-- C8 as stated is false at two points. First, the `state` echo: an
authorize request that supplies `state` as the empty string receives a
redirect without any `state` parameter, because JavaScript treats `""`
as falsy — so "state echoed iff supplied" does not hold for a supplied
empty state. Second, the 302 itself: a present but unparseable
`redirect_uri` makes `new URL(redirect_uri)` throw after the code was
stored, so no 302 is sent — yet the code is in the store. -/
theorem C8_counterexample :
    (AuthorizeRequest.mk (some "nope") (some "http://localhost/cb") (some "code")
        (some "X") none (some "")).state = some "" ∧
    (handleAuthorize 5
        (AuthorizeRequest.mk (some "nope") (some "http://localhost/cb") (some "code")
          (some "X") none (some "")) stEx).1 =
      .redirect 302 "http://localhost/cb" "r0" none ∧
    (handleAuthorize 5
        (AuthorizeRequest.mk (some "nope") (some "not-a-url") (some "code")
          (some "X") none none) stEx).1 = .thrown ∧
    mapGet (handleAuthorize 5
        (AuthorizeRequest.mk (some "nope") (some "not-a-url") (some "code")
          (some "X") none none) stEx).2.authorizationCodes "r0" ≠ none := by
  decide

/-- C8 (amended): for every request with truthy `client_id`,
`redirect_uri` and `code_challenge` and `response_type = "code"`, and a
fresh random draw, exactly one new AuthorizationCode is stored — unused,
with `expiresAt = now + 600s`, bound to the supplied `redirectUri` and
`codeChallenge`, with method defaulting to `"plain"` when omitted — in
every case, even when `redirect_uri` does not parse (then
`new URL(redirect_uri)` throws after the store and Express answers 500
with no redirect). When `redirect_uri` parses, the response is a 302
redirect to it carrying the code and, iff a nonempty `state` was
supplied, that state echoed unchanged. -/
theorem C8_authorize_success (now : Nat) (req : AuthorizeRequest) (s : OAuthState)
    (hc : truthy req.client_id = true) (hr : req.response_type = some "code")
    (hu : truthy req.redirect_uri = true) (hch : truthy req.code_challenge = true)
    (hfresh : mapGet s.authorizationCodes (s.rng s.rngIdx) = none) :
    (parseUrl (req.redirect_uri.getD "") ≠ none →
      handleAuthorize now req s =
        (.redirect 302 (req.redirect_uri.getD "") (s.rng s.rngIdx)
            (if truthy req.state then req.state else none),
          { s with
            authorizationCodes := mapSet s.authorizationCodes (s.rng s.rngIdx)
              (mintedAuthCode now req (s.rng s.rngIdx)),
            rngIdx := s.rngIdx + 1 })) ∧
    (parseUrl (req.redirect_uri.getD "") = none →
      handleAuthorize now req s =
        (.thrown,
          { s with
            authorizationCodes := mapSet s.authorizationCodes (s.rng s.rngIdx)
              (mintedAuthCode now req (s.rng s.rngIdx)),
            rngIdx := s.rngIdx + 1 })) ∧
    (handleAuthorize now req s).2.authorizationCodes.length
      = s.authorizationCodes.length + 1 ∧
    mapGet (handleAuthorize now req s).2.authorizationCodes (s.rng s.rngIdx)
      = some (mintedAuthCode now req (s.rng s.rngIdx)) ∧
    (∀ k, k ≠ s.rng s.rngIdx →
      mapGet (handleAuthorize now req s).2.authorizationCodes k
        = mapGet s.authorizationCodes k) ∧
    (mintedAuthCode now req (s.rng s.rngIdx)).used = false ∧
    now < (mintedAuthCode now req (s.rng s.rngIdx)).expiresAt ∧
    (mintedAuthCode now req (s.rng s.rngIdx)).expiresAt = now + 600 * 1000 ∧
    (mintedAuthCode now req (s.rng s.rngIdx)).redirectUri = req.redirect_uri.getD "" ∧
    (mintedAuthCode now req (s.rng s.rngIdx)).codeChallenge = req.code_challenge.getD "" ∧
    (req.code_challenge_method = none →
      (mintedAuthCode now req (s.rng s.rngIdx)).codeChallengeMethod = "plain") := by
  have hstate : (handleAuthorize now req s).2 =
      { s with
        authorizationCodes := mapSet s.authorizationCodes (s.rng s.rngIdx)
          (mintedAuthCode now req (s.rng s.rngIdx)),
        rngIdx := s.rngIdx + 1 } := by
    cases hp : parseUrl (req.redirect_uri.getD "") <;>
      simp [handleAuthorize, hc, hr, hu, hch, generateRandomString, mintedAuthCode, hp]
  refine ⟨?_, ?_, ?_, ?_, ?_, ?_, ?_, ?_, ?_, ?_, ?_⟩
  · intro hpar
    obtain ⟨u, hp⟩ := Option.ne_none_iff_exists'.mp hpar
    simp [handleAuthorize, hc, hr, hu, hch, generateRandomString, mintedAuthCode, hp]
  · intro hp
    simp [handleAuthorize, hc, hr, hu, hch, generateRandomString, mintedAuthCode, hp]
  · rw [hstate]
    exact mapSet_length _ _ _ hfresh
  · rw [hstate]
    exact mapGet_mapSet_self _ _ _
  · intro k hk
    rw [hstate]
    exact mapGet_mapSet_ne _ _ _ _ hk
  · rfl
  · simp [mintedAuthCode, CODE_EXPIRY_SECONDS]
  · simp [mintedAuthCode, CODE_EXPIRY_SECONDS]
  · rfl
  · rfl
  · intro hmm
    simp [mintedAuthCode, hmm, truthy]

theorem C8_authorize_success_witness :
    handleAuthorize 5 authReqEx stTok =
      (.redirect 302 (authReqEx.redirect_uri.getD "") (stTok.rng stTok.rngIdx)
          (if truthy authReqEx.state then authReqEx.state else none),
        { stTok with
          authorizationCodes := mapSet stTok.authorizationCodes (stTok.rng stTok.rngIdx)
            (mintedAuthCode 5 authReqEx (stTok.rng stTok.rngIdx)),
          rngIdx := stTok.rngIdx + 1 }) ∧
    (handleAuthorize 5 authReqEx stTok).2.authorizationCodes.length
      = stTok.authorizationCodes.length + 1 :=
  have h := C8_authorize_success 5 authReqEx stTok (by decide) rfl (by decide) (by decide)
    (by decide)
  ⟨h.1 (by decide), h.2.2.1⟩

/-! ### C9: bearer validation -/

/-- C9: `validateAccessToken` answers valid iff the header is exactly
`"Bearer"` followed by one space-separated token that is in the store and
not past its expiry; a present-but-expired token is deleted and reported
invalid, and afterwards it is no longer present; on a valid answer the
state is unchanged (so validation is repeatable until expiry). -/
theorem C9_bearer_validation (now : Nat) (h : Option String) (s : OAuthState) :
    ((validateAccessToken now h s).1 = true ↔
      ∃ hh t td, h = some hh ∧ splitOnSpace hh = ["Bearer", t] ∧
        mapGet s.accessTokens t = some td ∧ now ≤ td.expiresAt) ∧
    (∀ hh t td, h = some hh → splitOnSpace hh = ["Bearer", t] →
      mapGet s.accessTokens t = some td → td.expiresAt < now →
      validateAccessToken now h s =
        (false, { s with accessTokens := mapDel s.accessTokens t }) ∧
      mapGet (validateAccessToken now h s).2.accessTokens t = none) ∧
    ((validateAccessToken now h s).1 = true → (validateAccessToken now h s).2 = s) := by
  cases h with
  | none => simp [validateAccessToken]
  | some hh =>
    by_cases he : hh = ""
    · subst he
      have hsp0 : splitOnSpace "" = [""] := by decide
      have hres : validateAccessToken now (some "") s = (false, s) := by
        simp [validateAccessToken]
      refine ⟨⟨fun hcon => ?_, ?_⟩, ?_, fun hcon => ?_⟩
      · simp [hres] at hcon
      · rintro ⟨hh', t', td', h1, h2, h3, h4⟩
        injection h1 with e
        rw [← e, hsp0] at h2
        simp at h2
      · intro hh' t' td' h1 h2 h3 h4
        injection h1 with e
        rw [← e, hsp0] at h2
        simp at h2
      · simp [hres] at hcon
    · have hbe : (hh == "") = false := by simpa using he
      cases hsp : splitOnSpace hh with
      | nil =>
        have hres : validateAccessToken now (some hh) s = (false, s) := by
          simp [validateAccessToken, hbe, hsp]
        refine ⟨⟨fun hcon => ?_, ?_⟩, ?_, fun hcon => ?_⟩
        · simp [hres] at hcon
        · rintro ⟨hh', t', td', h1, h2, h3, h4⟩
          injection h1 with e
          rw [← e, hsp] at h2
          simp at h2
        · intro hh' t' td' h1 h2 h3 h4
          injection h1 with e
          rw [← e, hsp] at h2
          simp at h2
        · simp [hres] at hcon
      | cons p0 tl =>
        cases tl with
        | nil =>
          have hres : validateAccessToken now (some hh) s = (false, s) := by
            simp [validateAccessToken, hbe, hsp]
          refine ⟨⟨fun hcon => ?_, ?_⟩, ?_, fun hcon => ?_⟩
          · simp [hres] at hcon
          · rintro ⟨hh', t', td', h1, h2, h3, h4⟩
            injection h1 with e
            rw [← e, hsp] at h2
            simp at h2
          · intro hh' t' td' h1 h2 h3 h4
            injection h1 with e
            rw [← e, hsp] at h2
            simp at h2
          · simp [hres] at hcon
        | cons p1 tl2 =>
          cases tl2 with
          | cons p2 tl3 =>
            have hres : validateAccessToken now (some hh) s = (false, s) := by
              simp [validateAccessToken, hbe, hsp]
            refine ⟨⟨fun hcon => ?_, ?_⟩, ?_, fun hcon => ?_⟩
            · simp [hres] at hcon
            · rintro ⟨hh', t', td', h1, h2, h3, h4⟩
              injection h1 with e
              rw [← e, hsp] at h2
              simp at h2
            · intro hh' t' td' h1 h2 h3 h4
              injection h1 with e
              rw [← e, hsp] at h2
              simp at h2
            · simp [hres] at hcon
          | nil =>
            by_cases hb : p0 = "Bearer"
            · subst hb
              cases hm : mapGet s.accessTokens p1 with
              | none =>
                have hres : validateAccessToken now (some hh) s = (false, s) := by
                  simp [validateAccessToken, hbe, hsp, hm]
                refine ⟨⟨fun hcon => ?_, ?_⟩, ?_, fun hcon => ?_⟩
                · simp [hres] at hcon
                · rintro ⟨hh', t', td', h1, h2, h3, h4⟩
                  injection h1 with e
                  rw [← e, hsp] at h2
                  simp at h2
                  rw [← h2] at h3
                  rw [hm] at h3
                  cases h3
                · intro hh' t' td' h1 h2 h3 h4
                  injection h1 with e
                  rw [← e, hsp] at h2
                  simp at h2
                  rw [← h2] at h3
                  rw [hm] at h3
                  cases h3
                · simp [hres] at hcon
              | some td =>
                by_cases hexp : now > td.expiresAt
                · have hres : validateAccessToken now (some hh) s =
                      (false, { s with accessTokens := mapDel s.accessTokens p1 }) := by
                    simp [validateAccessToken, hbe, hsp, hm, hexp]
                  refine ⟨⟨fun hcon => ?_, ?_⟩, ?_, fun hcon => ?_⟩
                  · simp [hres] at hcon
                  · rintro ⟨hh', t', td', h1, h2, h3, h4⟩
                    injection h1 with e
                    rw [← e, hsp] at h2
                    simp at h2
                    rw [← h2] at h3
                    rw [hm] at h3
                    injection h3 with e3
                    rw [← e3] at h4
                    omega
                  · intro hh' t' td' h1 h2 h3 h4
                    injection h1 with e
                    rw [← e, hsp] at h2
                    simp at h2
                    rw [← h2]
                    refine ⟨hres, ?_⟩
                    rw [hres]
                    exact mapGet_mapDel_self _ _
                  · simp [hres] at hcon
                · have hres : validateAccessToken now (some hh) s = (true, s) := by
                    simp [validateAccessToken, hbe, hsp, hm, hexp]
                  refine ⟨⟨fun _ => ?_, fun _ => ?_⟩, ?_, fun _ => ?_⟩
                  · exact ⟨hh, p1, td, rfl, hsp, hm, by omega⟩
                  · simp [hres]
                  · intro hh' t' td' h1 h2 h3 h4
                    injection h1 with e
                    rw [← e, hsp] at h2
                    simp at h2
                    rw [← h2] at h3
                    rw [hm] at h3
                    injection h3 with e3
                    rw [← e3] at h4
                    omega
                  · simp [hres]
            · have hbne : (p0 != "Bearer") = true := by
                simp only [bne_iff_ne, ne_eq]
                exact hb
              have hres : validateAccessToken now (some hh) s = (false, s) := by
                simp [validateAccessToken, hbe, hsp, hbne]
              refine ⟨⟨fun hcon => ?_, ?_⟩, ?_, fun hcon => ?_⟩
              · simp [hres] at hcon
              · rintro ⟨hh', t', td', h1, h2, h3, h4⟩
                injection h1 with e
                rw [← e, hsp] at h2
                simp [hb] at h2
              · intro hh' t' td' h1 h2 h3 h4
                injection h1 with e
                rw [← e, hsp] at h2
                simp [hb] at h2
              · simp [hres] at hcon

theorem C9_bearer_validation_witness :
    validateAccessToken 6000 (some "Bearer t1") stTok =
      (false, { stTok with accessTokens := mapDel stTok.accessTokens "t1" }) ∧
    mapGet (validateAccessToken 6000 (some "Bearer t1") stTok).2.accessTokens "t1" = none :=
  (C9_bearer_validation 6000 (some "Bearer t1") stTok).2.1 "Bearer t1" "t1" tkEx rfl
    (by decide) (by decide) (by decide)

/-! ### Shared branch lemmas for `handleToken` -/

theorem handleToken_not_found (sha : String → String) (now : Nat) (req : TokenRequest)
    (s : OAuthState) (hg : req.grant_type = some "authorization_code")
    (hc : truthy req.code = true)
    (hm : mapGet s.authorizationCodes (req.code.getD "") = none) :
    handleToken sha now req s =
      (.error 400 "invalid_grant" "Invalid authorization code", s) := by
  simp [handleToken, hg, hc, hm]

theorem handleToken_valid (sha : String → String) (now : Nat) (req : TokenRequest)
    (s : OAuthState) (a : AuthorizationCode)
    (hg : req.grant_type = some "authorization_code")
    (hc : truthy req.code = true)
    (hm : mapGet s.authorizationCodes (req.code.getD "") = some a)
    (hexp : ¬ now > a.expiresAt) (hused : a.used = false)
    (hcid : (truthy req.client_id && (req.client_id != some a.clientId)) = false)
    (hrid : (truthy req.redirect_uri && (req.redirect_uri != some a.redirectUri)) = false)
    (hv : truthy req.code_verifier = true)
    (hok : verifyCodeChallenge sha (req.code_verifier.getD "")
      a.codeChallenge a.codeChallengeMethod = true) :
    handleToken sha now req s =
      (.success (s.rng s.rngIdx) "Bearer" TOKEN_EXPIRY_SECONDS,
        { s with
          authorizationCodes := mapDel s.authorizationCodes (req.code.getD ""),
          accessTokens := mapSet s.accessTokens (s.rng s.rngIdx)
            { token := s.rng s.rngIdx, clientId := a.clientId,
              expiresAt := now + TOKEN_EXPIRY_SECONDS * 1000 },
          rngIdx := s.rngIdx + 1 }) := by
  simp [handleToken, hg, hc, hm, hexp, hused, hcid, hrid, hv, hok, generateRandomString]

/-! ### C5: token ownership -/

/-- C5: every access token minted by a successful exchange is stored with
`clientId` equal to the `clientId` recorded on the authorization code that
produced it; the caller-supplied `client_id` (arbitrary here) never
determines the token's owner. -/
theorem C5_token_ownership (sha : String → String) (now : Nat) (req : TokenRequest)
    (s : OAuthState) (a : AuthorizationCode) (tok tt : String) (ei : Nat)
    (hm : mapGet s.authorizationCodes (req.code.getD "") = some a)
    (hs : (handleToken sha now req s).1 = .success tok tt ei) :
    mapGet (handleToken sha now req s).2.accessTokens tok =
      some { token := tok, clientId := a.clientId,
             expiresAt := now + TOKEN_EXPIRY_SECONDS * 1000 } := by
  simp only [handleToken, generateRandomString] at hs ⊢
  split at hs
  · exact absurd hs (by simp)
  split at hs
  · exact absurd hs (by simp)
  split at hs
  · exact absurd hs (by simp)
  rename_i authCode heq
  split at hs
  · exact absurd hs (by simp)
  split at hs
  · exact absurd hs (by simp)
  split at hs
  · exact absurd hs (by simp)
  split at hs
  · exact absurd hs (by simp)
  split at hs
  · exact absurd hs (by simp)
  split at hs
  · exact absurd hs (by simp)
  rw [heq] at hm
  injection hm with hma
  subst hma
  simp only [TokenResult.success.injEq] at hs
  obtain ⟨e1, e2, e3⟩ := hs
  subst e1
  simp [*, mapGet_mapSet_self]

theorem C5_token_ownership_witness :
    mapGet (handleToken shaEx 500 tokReqEx stEx).2.accessTokens "r0" =
      some { token := "r0", clientId := acEx.clientId,
             expiresAt := 500 + TOKEN_EXPIRY_SECONDS * 1000 } :=
  C5_token_ownership shaEx 500 tokReqEx stEx acEx "r0" "Bearer" 3600 (by decide) (by decide)

/-! ### C3: token-endpoint validation order -/

/-- C3: `handleToken` performs its nine checks in order, short-circuiting
at the first failure with that check's distinct error; the expired and
already-used checks also delete the stored entry (so the deletion occurs
even though the caller only learns the error), and every other failing
check leaves the state untouched. Each conjunct assumes exactly that all
earlier checks passed, so no later check runs once an earlier one
fails. -/
theorem C3_token_validation_order (sha : String → String) (now : Nat)
    (req : TokenRequest) (s : OAuthState) :
    (req.grant_type ≠ some "authorization_code" →
      handleToken sha now req s =
        (.error 400 "unsupported_grant_type" "Only authorization_code grant is supported", s)) ∧
    (req.grant_type = some "authorization_code" → truthy req.code = false →
      handleToken sha now req s =
        (.error 400 "invalid_request" "Missing authorization code", s)) ∧
    (req.grant_type = some "authorization_code" → truthy req.code = true →
      mapGet s.authorizationCodes (req.code.getD "") = none →
      handleToken sha now req s =
        (.error 400 "invalid_grant" "Invalid authorization code", s)) ∧
    (∀ a, req.grant_type = some "authorization_code" → truthy req.code = true →
      mapGet s.authorizationCodes (req.code.getD "") = some a →
      now > a.expiresAt →
      handleToken sha now req s =
        (.error 400 "invalid_grant" "Authorization code has expired",
          { s with authorizationCodes := mapDel s.authorizationCodes (req.code.getD "") }) ∧
      mapGet (handleToken sha now req s).2.authorizationCodes (req.code.getD "") = none) ∧
    (∀ a, req.grant_type = some "authorization_code" → truthy req.code = true →
      mapGet s.authorizationCodes (req.code.getD "") = some a →
      ¬ now > a.expiresAt → a.used = true →
      handleToken sha now req s =
        (.error 400 "invalid_grant" "Authorization code has already been used",
          { s with authorizationCodes := mapDel s.authorizationCodes (req.code.getD "") }) ∧
      mapGet (handleToken sha now req s).2.authorizationCodes (req.code.getD "") = none) ∧
    (∀ a, req.grant_type = some "authorization_code" → truthy req.code = true →
      mapGet s.authorizationCodes (req.code.getD "") = some a →
      ¬ now > a.expiresAt → a.used = false →
      (truthy req.client_id && (req.client_id != some a.clientId)) = true →
      handleToken sha now req s =
        (.error 400 "invalid_grant" "Client ID mismatch", s)) ∧
    (∀ a, req.grant_type = some "authorization_code" → truthy req.code = true →
      mapGet s.authorizationCodes (req.code.getD "") = some a →
      ¬ now > a.expiresAt → a.used = false →
      (truthy req.client_id && (req.client_id != some a.clientId)) = false →
      (truthy req.redirect_uri && (req.redirect_uri != some a.redirectUri)) = true →
      handleToken sha now req s =
        (.error 400 "invalid_grant" "Redirect URI mismatch", s)) ∧
    (∀ a, req.grant_type = some "authorization_code" → truthy req.code = true →
      mapGet s.authorizationCodes (req.code.getD "") = some a →
      ¬ now > a.expiresAt → a.used = false →
      (truthy req.client_id && (req.client_id != some a.clientId)) = false →
      (truthy req.redirect_uri && (req.redirect_uri != some a.redirectUri)) = false →
      truthy req.code_verifier = false →
      handleToken sha now req s =
        (.error 400 "invalid_request" "Missing code_verifier (PKCE required)", s)) ∧
    (∀ a, req.grant_type = some "authorization_code" → truthy req.code = true →
      mapGet s.authorizationCodes (req.code.getD "") = some a →
      ¬ now > a.expiresAt → a.used = false →
      (truthy req.client_id && (req.client_id != some a.clientId)) = false →
      (truthy req.redirect_uri && (req.redirect_uri != some a.redirectUri)) = false →
      truthy req.code_verifier = true →
      verifyCodeChallenge sha (req.code_verifier.getD "")
        a.codeChallenge a.codeChallengeMethod = false →
      handleToken sha now req s =
        (.error 400 "invalid_grant" "Invalid code_verifier", s)) := by
  refine ⟨?_, ?_, ?_, ?_, ?_, ?_, ?_, ?_, ?_⟩
  · intro h1
    simp [handleToken, h1]
  · intro h1 h2
    simp [handleToken, h1, h2]
  · intro h1 h2 h3
    simp [handleToken, h1, h2, h3]
  · intro a h1 h2 h3 h4
    have heq : handleToken sha now req s =
        (.error 400 "invalid_grant" "Authorization code has expired",
          { s with authorizationCodes := mapDel s.authorizationCodes (req.code.getD "") }) := by
      simp [handleToken, h1, h2, h3, h4]
    exact ⟨heq, by rw [heq]; exact mapGet_mapDel_self _ _⟩
  · intro a h1 h2 h3 h4 h5
    have heq : handleToken sha now req s =
        (.error 400 "invalid_grant" "Authorization code has already been used",
          { s with authorizationCodes := mapDel s.authorizationCodes (req.code.getD "") }) := by
      simp [handleToken, h1, h2, h3, h4, h5]
    exact ⟨heq, by rw [heq]; exact mapGet_mapDel_self _ _⟩
  · intro a h1 h2 h3 h4 h5 h6
    simp [handleToken, h1, h2, h3, h4, h5, h6]
  · intro a h1 h2 h3 h4 h5 h6 h7
    simp [handleToken, h1, h2, h3, h4, h5, h6, h7]
  · intro a h1 h2 h3 h4 h5 h6 h7 h8
    simp [handleToken, h1, h2, h3, h4, h5, h6, h7, h8]
  · intro a h1 h2 h3 h4 h5 h6 h7 h8 h9
    simp [handleToken, h1, h2, h3, h4, h5, h6, h7, h8, h9]

theorem C3_token_validation_order_witness :
    handleToken shaEx 2000 tokReqEx stEx =
      (.error 400 "invalid_grant" "Authorization code has expired",
        { stEx with
          authorizationCodes := mapDel stEx.authorizationCodes (tokReqEx.code.getD "") }) ∧
    mapGet (handleToken shaEx 2000 tokReqEx stEx).2.authorizationCodes
      (tokReqEx.code.getD "") = none :=
  (C3_token_validation_order shaEx 2000 tokReqEx stEx).2.2.2.1 acEx rfl (by decide)
    (by decide) (by decide)

/-! ### C1: single-use round trip -/

/-- C1 as stated is false in its failure description: after a successful
exchange the code is deleted from the store (part_002 line 338), so the
second exchange takes the code-not-found branch and reports
`invalid_grant` with description "Invalid authorization code", not
"Authorization code has already been used". -/
theorem C1_counterexample :
    (handleToken shaEx 500 tokReqEx stEx).1 = .success "r0" "Bearer" 3600 ∧
    (handleToken shaEx 500 tokReqEx (handleToken shaEx 500 tokReqEx stEx).2).1 =
      .error 400 "invalid_grant" "Invalid authorization code" ∧
    TokenResult.error 400 "invalid_grant" "Invalid authorization code" ≠
      TokenResult.error 400 "invalid_grant" "Authorization code has already been used" := by
  decide

/-- C1 (amended): for a stored, unexpired, unused authorization code with
an `S256` challenge equal to the digest of the verifier, the first
exchange succeeds and stores one access token; any second exchange with
the same code (same or different verifier) fails with `invalid_grant` —
description "Invalid authorization code", the code having been deleted by
the successful exchange — and leaves the state unchanged, so no second
access token is created. -/
theorem C1_single_use_round_trip (sha : String → String) (now now2 : Nat)
    (s : OAuthState) (c v : String) (a : AuthorizationCode) (req2 : TokenRequest)
    (hm : mapGet s.authorizationCodes c = some a)
    (hnc : c ≠ "") (hnv : v ≠ "")
    (hexp : ¬ now > a.expiresAt) (hused : a.used = false)
    (hmeth : a.codeChallengeMethod = "S256") (hchal : a.codeChallenge = sha v)
    (hreq2g : req2.grant_type = some "authorization_code") (hreq2c : req2.code = some c) :
    (handleToken sha now
        (TokenRequest.mk (some "authorization_code") (some c) none none (some v)) s).1 =
      .success (s.rng s.rngIdx) "Bearer" TOKEN_EXPIRY_SECONDS ∧
    mapGet (handleToken sha now
        (TokenRequest.mk (some "authorization_code") (some c) none none (some v)) s).2.accessTokens
        (s.rng s.rngIdx) =
      some { token := s.rng s.rngIdx, clientId := a.clientId,
             expiresAt := now + TOKEN_EXPIRY_SECONDS * 1000 } ∧
    handleToken sha now2 req2
        (handleToken sha now
          (TokenRequest.mk (some "authorization_code") (some c) none none (some v)) s).2 =
      (.error 400 "invalid_grant" "Invalid authorization code",
        (handleToken sha now
          (TokenRequest.mk (some "authorization_code") (some c) none none (some v)) s).2) := by
  have h1 := handleToken_valid sha now
    (TokenRequest.mk (some "authorization_code") (some c) none none (some v)) s a
    rfl (by simp [truthy, hnc]) (by simpa using hm) hexp hused rfl rfl
    (by simp [truthy, hnv])
    (by simp [verifyCodeChallenge, hmeth, hchal])
  refine ⟨by rw [h1], by rw [h1]; exact mapGet_mapSet_self _ _ _, ?_⟩
  apply handleToken_not_found sha now2 req2 _ hreq2g
  · simp [truthy, hreq2c, hnc]
  · rw [h1, hreq2c]
    exact mapGet_mapDel_self _ _

theorem C1_single_use_round_trip_witness :
    (handleToken shaEx 500
        (TokenRequest.mk (some "authorization_code") (some "c1") none none (some "v")) stEx).1 =
      .success (stEx.rng stEx.rngIdx) "Bearer" TOKEN_EXPIRY_SECONDS ∧
    handleToken shaEx 700 tokReqEx
        (handleToken shaEx 500
          (TokenRequest.mk (some "authorization_code") (some "c1") none none (some "v")) stEx).2 =
      (.error 400 "invalid_grant" "Invalid authorization code",
        (handleToken shaEx 500
          (TokenRequest.mk (some "authorization_code") (some "c1") none none (some "v")) stEx).2) :=
  have h := C1_single_use_round_trip shaEx 500 700 stEx "c1" "v" acEx tokReqEx (by decide)
    (by decide) (by decide) (by decide) (by decide) (by decide) (by decide) rfl rfl
  ⟨h.1, h.2.2⟩

/-! ### C2: concurrent anti-replay under run-to-completion -/

theorem countP_replicate_eq {α : Type} (p : α → Bool) (a : α) (m : Nat) :
    (List.replicate m a).countP p = if p a then m else 0 := by
  induction m with
  | zero => simp
  | succ k ih =>
    rw [List.replicate_succ, List.countP_cons, ih]
    by_cases hp : p a = true
    · simp [hp]
    · rw [Bool.not_eq_true] at hp
      simp [hp]

theorem runTokenRequests_not_found (sha : String → String) (now : Nat)
    (req : TokenRequest) (s : OAuthState) (m : Nat)
    (hg : req.grant_type = some "authorization_code") (hc : truthy req.code = true)
    (hm : mapGet s.authorizationCodes (req.code.getD "") = none) :
    runTokenRequests sha now (List.replicate m req) s =
      (List.replicate m (.error 400 "invalid_grant" "Invalid authorization code"), s) := by
  induction m with
  | zero => rfl
  | succ k ih =>
    have hstep := handleToken_not_found sha now req s hg hc hm
    rw [List.replicate_succ]
    simp only [runTokenRequests, hstep, ih]
    rw [List.replicate_succ]

/-- C2 as stated is false in its failure description: under the Node.js
run-to-completion model two back-to-back exchanges of the same valid code
yield one success and one `invalid_grant` whose description is "Invalid
authorization code" (the code was deleted by the success), not
"Authorization code has already been used". -/
theorem C2_counterexample :
    (runTokenRequests shaEx 500 (List.replicate 2 tokReqEx) stEx).1 =
      [.success "r0" "Bearer" 3600,
       .error 400 "invalid_grant" "Invalid authorization code"] ∧
    TokenResult.error 400 "invalid_grant" "Invalid authorization code" ≠
      TokenResult.error 400 "invalid_grant" "Authorization code has already been used" := by
  decide

/-- C2 (amended): `handleToken` contains no interleaving point (no
`await`), so the JavaScript event loop executes each of N concurrent
exchange calls to completion in some arrival order; for every N ≥ 2,
running N identical exchange calls for the same stored, unexpired, unused
code yields exactly one success and N-1 `invalid_grant` failures (with
description "Invalid authorization code", the code having been deleted by
the first success) — never two successes. The read-check-mark-delete
sequence is atomic per call under this model, which is what the
mutual-exclusion requirement amounts to. -/
theorem C2_concurrent_exchange (sha : String → String) (now : Nat)
    (s : OAuthState) (c v : String) (a : AuthorizationCode) (n : Nat)
    (hm : mapGet s.authorizationCodes c = some a)
    (hnc : c ≠ "") (hnv : v ≠ "")
    (hexp : ¬ now > a.expiresAt) (hused : a.used = false)
    (hmeth : a.codeChallengeMethod = "S256") (hchal : a.codeChallenge = sha v)
    (hn : 2 ≤ n) :
    (runTokenRequests sha now
        (List.replicate n (TokenRequest.mk (some "authorization_code") (some c) none none (some v)))
        s).1 =
      .success (s.rng s.rngIdx) "Bearer" TOKEN_EXPIRY_SECONDS ::
        List.replicate (n - 1) (.error 400 "invalid_grant" "Invalid authorization code") ∧
    (runTokenRequests sha now
        (List.replicate n (TokenRequest.mk (some "authorization_code") (some c) none none (some v)))
        s).1.countP isTokenSuccess = 1 ∧
    (runTokenRequests sha now
        (List.replicate n (TokenRequest.mk (some "authorization_code") (some c) none none (some v)))
        s).1.countP isInvalidGrant = n - 1 := by
  obtain ⟨m, rfl⟩ : ∃ m, n = m + 1 := ⟨n - 1, by omega⟩
  have h1 := handleToken_valid sha now
    (TokenRequest.mk (some "authorization_code") (some c) none none (some v)) s a
    rfl (by simp [truthy, hnc]) (by simpa using hm) hexp hused rfl rfl
    (by simp [truthy, hnv])
    (by simp [verifyCodeChallenge, hmeth, hchal])
  have hrest := runTokenRequests_not_found sha now
    (TokenRequest.mk (some "authorization_code") (some c) none none (some v))
    { s with
      authorizationCodes := mapDel s.authorizationCodes c,
      accessTokens := mapSet s.accessTokens (s.rng s.rngIdx)
        { token := s.rng s.rngIdx, clientId := a.clientId,
          expiresAt := now + TOKEN_EXPIRY_SECONDS * 1000 },
      rngIdx := s.rngIdx + 1 } m
    rfl (by simp [truthy, hnc]) (mapGet_mapDel_self s.authorizationCodes c)
  have hlist : (runTokenRequests sha now
      (List.replicate (m + 1)
        (TokenRequest.mk (some "authorization_code") (some c) none none (some v))) s).1 =
      .success (s.rng s.rngIdx) "Bearer" TOKEN_EXPIRY_SECONDS ::
        List.replicate m (.error 400 "invalid_grant" "Invalid authorization code") := by
    rw [List.replicate_succ]
    simp only [runTokenRequests, h1, Option.getD_some]
    rw [hrest]
  refine ⟨by simpa using hlist, ?_, ?_⟩
  · rw [hlist, List.countP_cons, countP_replicate_eq]
    simp [isTokenSuccess]
  · rw [hlist, List.countP_cons, countP_replicate_eq]
    simp [isInvalidGrant]

theorem C2_concurrent_exchange_witness :
    (runTokenRequests shaEx 500
        (List.replicate 3 (TokenRequest.mk (some "authorization_code") (some "c1") none none (some "v")))
        stEx).1 =
      .success (stEx.rng stEx.rngIdx) "Bearer" TOKEN_EXPIRY_SECONDS ::
        List.replicate 2 (.error 400 "invalid_grant" "Invalid authorization code") ∧
    (runTokenRequests shaEx 500
        (List.replicate 3 (TokenRequest.mk (some "authorization_code") (some "c1") none none (some "v")))
        stEx).1.countP isTokenSuccess = 1 :=
  have h := C2_concurrent_exchange shaEx 500 stEx "c1" "v" acEx 3 (by decide) (by decide)
    (by decide) (by decide) (by decide) (by decide) (by decide) (by decide)
  ⟨h.1, h.2.1⟩

/-! ### C10: registry noninterference -/

theorem handleAuthorize_registry (now : Nat) (areq : AuthorizeRequest)
    (ac : List (String × AuthorizationCode)) (rc : List (String × RegisteredClient))
    (atk : List (String × AccessToken)) (rng : Nat → String) (i : Nat) :
    handleAuthorize now areq (OAuthState.mk ac rc atk rng i) =
      ((handleAuthorize now areq (OAuthState.mk ac [] atk rng i)).1,
        { (handleAuthorize now areq (OAuthState.mk ac [] atk rng i)).2 with
          registeredClients := rc }) := by
  by_cases h1 : truthy areq.client_id = true
  case neg =>
    rw [Bool.not_eq_true] at h1
    simp [handleAuthorize, h1]
  by_cases h2 : areq.response_type = some "code"
  case neg =>
    have h2b : (areq.response_type != some "code") = true := by
      simp only [bne_iff_ne, ne_eq]
      exact h2
    simp [handleAuthorize, h1, h2b]
  by_cases h3 : truthy areq.redirect_uri = true
  case neg =>
    rw [Bool.not_eq_true] at h3
    simp [handleAuthorize, h1, h2, h3]
  by_cases h4 : truthy areq.code_challenge = true
  case neg =>
    rw [Bool.not_eq_true] at h4
    simp [handleAuthorize, h1, h2, h3, h4]
  cases hp : parseUrl (areq.redirect_uri.getD "") with
  | none => simp [handleAuthorize, h1, h2, h3, h4, hp, generateRandomString]
  | some u => simp [handleAuthorize, h1, h2, h3, h4, hp, generateRandomString]

theorem handleToken_registry (sha : String → String) (now : Nat) (treq : TokenRequest)
    (ac : List (String × AuthorizationCode)) (rc : List (String × RegisteredClient))
    (atk : List (String × AccessToken)) (rng : Nat → String) (i : Nat) :
    handleToken sha now treq (OAuthState.mk ac rc atk rng i) =
      ((handleToken sha now treq (OAuthState.mk ac [] atk rng i)).1,
        { (handleToken sha now treq (OAuthState.mk ac [] atk rng i)).2 with
          registeredClients := rc }) := by
  by_cases h1 : treq.grant_type = some "authorization_code"
  case neg =>
    have h1b : (treq.grant_type != some "authorization_code") = true := by
      simp only [bne_iff_ne, ne_eq]
      exact h1
    simp [handleToken, h1b]
  by_cases h2 : truthy treq.code = true
  case neg =>
    rw [Bool.not_eq_true] at h2
    simp [handleToken, h1, h2]
  cases hm : mapGet ac (treq.code.getD "") with
  | none => simp [handleToken, h1, h2, hm]
  | some a =>
  by_cases h3 : now > a.expiresAt
  case pos => simp [handleToken, h1, h2, hm, h3]
  by_cases h4 : a.used = true
  case pos => simp [handleToken, h1, h2, hm, h3, h4]
  rw [Bool.not_eq_true] at h4
  by_cases h5 : (truthy treq.client_id && (treq.client_id != some a.clientId)) = true
  case pos => simp [handleToken, h1, h2, hm, h3, h4, h5]
  rw [Bool.not_eq_true] at h5
  by_cases h6 : (truthy treq.redirect_uri && (treq.redirect_uri != some a.redirectUri)) = true
  case pos => simp [handleToken, h1, h2, hm, h3, h4, h5, h6]
  rw [Bool.not_eq_true] at h6
  by_cases h7 : truthy treq.code_verifier = true
  case neg =>
    rw [Bool.not_eq_true] at h7
    simp [handleToken, h1, h2, hm, h3, h4, h5, h6, h7]
  by_cases h8 : verifyCodeChallenge sha (treq.code_verifier.getD "")
      a.codeChallenge a.codeChallengeMethod = true
  case neg =>
    rw [Bool.not_eq_true] at h8
    simp [handleToken, h1, h2, hm, h3, h4, h5, h6, h7, h8]
  simp [handleToken, h1, h2, hm, h3, h4, h5, h6, h7, h8, generateRandomString]

/-- C10: the results and store effects of `handleAuthorize` and
`handleToken` are independent of the contents of the client registry (the
registry itself merely passes through); in particular, on a registry with
no clients at all, any syntactically valid authorize request — arbitrary,
never-registered `client_id` and `redirect_uri` — still receives a 302
redirect carrying a fresh code. -/
theorem C10_registry_noninterference (sha : String → String) (now : Nat)
    (areq : AuthorizeRequest) (treq : TokenRequest)
    (ac : List (String × AuthorizationCode)) (rc rc2 : List (String × RegisteredClient))
    (atk : List (String × AccessToken)) (rng : Nat → String) (i : Nat) :
    ((handleAuthorize now areq (OAuthState.mk ac rc atk rng i)).1 =
      (handleAuthorize now areq (OAuthState.mk ac rc2 atk rng i)).1) ∧
    ((handleAuthorize now areq (OAuthState.mk ac rc atk rng i)).2.authorizationCodes =
      (handleAuthorize now areq (OAuthState.mk ac rc2 atk rng i)).2.authorizationCodes) ∧
    ((handleAuthorize now areq (OAuthState.mk ac rc atk rng i)).2.accessTokens =
      (handleAuthorize now areq (OAuthState.mk ac rc2 atk rng i)).2.accessTokens) ∧
    ((handleAuthorize now areq (OAuthState.mk ac rc atk rng i)).2.rngIdx =
      (handleAuthorize now areq (OAuthState.mk ac rc2 atk rng i)).2.rngIdx) ∧
    ((handleAuthorize now areq (OAuthState.mk ac rc atk rng i)).2.registeredClients = rc) ∧
    ((handleToken sha now treq (OAuthState.mk ac rc atk rng i)).1 =
      (handleToken sha now treq (OAuthState.mk ac rc2 atk rng i)).1) ∧
    ((handleToken sha now treq (OAuthState.mk ac rc atk rng i)).2.authorizationCodes =
      (handleToken sha now treq (OAuthState.mk ac rc2 atk rng i)).2.authorizationCodes) ∧
    ((handleToken sha now treq (OAuthState.mk ac rc atk rng i)).2.accessTokens =
      (handleToken sha now treq (OAuthState.mk ac rc2 atk rng i)).2.accessTokens) ∧
    ((handleToken sha now treq (OAuthState.mk ac rc atk rng i)).2.rngIdx =
      (handleToken sha now treq (OAuthState.mk ac rc2 atk rng i)).2.rngIdx) ∧
    ((handleToken sha now treq (OAuthState.mk ac rc atk rng i)).2.registeredClients = rc) ∧
    (truthy areq.client_id = true → areq.response_type = some "code" →
      truthy areq.redirect_uri = true → truthy areq.code_challenge = true →
      parseUrl (areq.redirect_uri.getD "") ≠ none →
      (handleAuthorize now areq (OAuthState.mk ac [] atk rng i)).1 =
        .redirect 302 (areq.redirect_uri.getD "") (rng i)
          (if truthy areq.state then areq.state else none)) := by
  have hA := handleAuthorize_registry now areq ac rc atk rng i
  have hA2 := handleAuthorize_registry now areq ac rc2 atk rng i
  have hT := handleToken_registry sha now treq ac rc atk rng i
  have hT2 := handleToken_registry sha now treq ac rc2 atk rng i
  refine ⟨?_, ?_, ?_, ?_, ?_, ?_, ?_, ?_, ?_, ?_, ?_⟩
  · rw [hA, hA2]
  · rw [hA, hA2]
  · rw [hA, hA2]
  · rw [hA, hA2]
  · rw [hA]
  · rw [hT, hT2]
  · rw [hT, hT2]
  · rw [hT, hT2]
  · rw [hT, hT2]
  · rw [hT]
  · intro hc hr hu hch hpar
    obtain ⟨u, hp⟩ := Option.ne_none_iff_exists'.mp hpar
    simp [handleAuthorize, hc, hr, hu, hch, hp, generateRandomString]

theorem C10_registry_noninterference_witness :
    ((handleAuthorize 5 authReqEx
        (OAuthState.mk [] [("old-id", rcEx)] [] (fun n => "r" ++ Nat.repr n) 0)).1 =
      (handleAuthorize 5 authReqEx
        (OAuthState.mk [] [] [] (fun n => "r" ++ Nat.repr n) 0)).1) ∧
    (handleAuthorize 5 authReqEx
        (OAuthState.mk [] [] [] (fun n => "r" ++ Nat.repr n) 0)).1 =
      .redirect 302 (authReqEx.redirect_uri.getD "") ((fun n => "r" ++ Nat.repr n) 0)
        (if truthy authReqEx.state then authReqEx.state else none) :=
  have h := C10_registry_noninterference shaEx 5 authReqEx tokReqEx []
    [("old-id", rcEx)] [] [] (fun n => "r" ++ Nat.repr n) 0
  ⟨h.1, h.2.2.2.2.2.2.2.2.2.2 (by decide) rfl (by decide) (by decide) (by decide)⟩

end OAuth
